import Mathlib

/-!
Shallow embedding of the SSH transport packet layer of this repository
(`src/packet.c` and `src/gzip.c`). Bytes are `Nat` (byte values on the wire),
buffers are `List Nat`, and 32-bit / 64-bit counters wrap explicitly through
`u32` / `u64`. External collaborators of the packet layer (block cipher,
MAC, zlib, PRNG) are abstract function parameters, exactly as the spec
treats them (black-box transforms).
-/

set_option maxRecDepth 8000

namespace LibsshPacket

def MAX_PACKET_LEN : Nat := 35000

/-- 32-bit wrap-around, used for the `uint32_t` sequence counters. -/
def u32 (n : Nat) : Nat := n % 4294967296

/-- `x - 1` in `uint32_t` arithmetic (wraps at zero). -/
def u32sub1 (n : Nat) : Nat := (n + 4294967295) % 4294967296

/-- 64-bit wrap-around, used for the `uint64_t` raw counters. -/
def u64 (n : Nat) : Nat := n % 18446744073709551616

/-- The session is a client or a server (`session->client` / `session->server`). -/
inductive Role
  | client
  | server
deriving DecidableEq, Fintype, Repr

/-- `enum ssh_session_state_e` (the values the filter consults). -/
inductive SessionState
  | initialKex
  | kexinitReceived
  | dh
  | authenticating
  | authenticated
  | error
deriving DecidableEq, Fintype, Repr

/-- `enum ssh_dh_state_e`. -/
inductive DHState
  | init
  | initSent
  | newkeysSent
  | finished
deriving DecidableEq, Fintype, Repr

/-- `enum ssh_auth_state_e` (`session->auth.state`). -/
inductive AuthState
  | noneSent
  | pubkeyOfferSent
  | pubkeyAuthSent
  | passwordAuthSent
  | kbdintSent
  | info
  | gssapiRequestSent
  | gssapiToken
  | gssapiMicSent
  | success
  | failed
  | partialSuccess
  | error
deriving DecidableEq, Fintype, Repr

/-- `enum ssh_auth_service_state_e` (`session->auth.service_state`). -/
inductive AuthServiceState
  | none
  | sent
  | accepted
deriving DecidableEq, Fintype, Repr

/-- `enum ssh_channel_request_state_e` (used both for `session->global_req_state`
and for `channel->request_state`). -/
inductive ChannelReqState
  | none
  | pending
  | accepted
  | denied
  | error
deriving DecidableEq, Fintype, Repr

/-- The session phase observed by the incoming state filter: role, session
state, DH state, auth states, and the pending-request slots. The filter of
the source receives the whole `ssh_session`; these are the fields it (or the
spec's claims about it) can consult. -/
structure SessionPhase where
  role : Role
  session_state : SessionState
  dh_handshake_state : DHState
  auth_state : AuthState
  auth_service_state : AuthServiceState
  global_req_state : ChannelReqState
  channel_request_state : ChannelReqState
deriving DecidableEq, Repr

instance : Fintype SessionPhase :=
  Fintype.ofEquiv
    (Role × SessionState × DHState × AuthState × AuthServiceState ×
      ChannelReqState × ChannelReqState)
    { toFun := fun x => ⟨x.1, x.2.1, x.2.2.1, x.2.2.2.1, x.2.2.2.2.1,
        x.2.2.2.2.2.1, x.2.2.2.2.2.2⟩
      invFun := fun p => (p.role, p.session_state, p.dh_handshake_state,
        p.auth_state, p.auth_service_state, p.global_req_state,
        p.channel_request_state)
      left_inv := fun _ => rfl
      right_inv := fun _ => rfl }

/-- `enum ssh_packet_filter_result_e`. -/
inductive FilterResult
  | allowed
  | denied
  | unknown
deriving DecidableEq, Repr

/-- `ssh_packet_incoming_filter` (src/packet.c): maps the incoming packet type
and the current session phase to ALLOWED / DENIED / UNKNOWN. The session is
passed as the phase record; the packet type (`session->in_packet.type`) is
passed explicitly. Each case mirrors the source's `switch` in order. -/
def ssh_packet_incoming_filter (t : Nat) (p : SessionPhase) : FilterResult :=
  match t with
  | 1 => .allowed                                    -- SSH2_MSG_DISCONNECT
  | 2 => .allowed                                    -- SSH2_MSG_IGNORE
  | 3 => .allowed                                    -- SSH2_MSG_UNIMPLEMENTED
  | 4 => .allowed                                    -- SSH2_MSG_DEBUG
  | 5 =>                                             -- SSH2_MSG_SERVICE_REQUEST
    if p.role = .client then .denied
    else if p.session_state ≠ .authenticating ∧ p.session_state ≠ .authenticated then .denied
    else if p.dh_handshake_state ≠ .finished then .denied
    else .allowed
  | 6 =>                                             -- SSH2_MSG_SERVICE_ACCEPT
    if p.session_state ≠ .authenticating ∧ p.session_state ≠ .authenticated then .denied
    else if p.dh_handshake_state ≠ .finished then .denied
    else if p.auth_service_state ≠ .sent then .denied
    else .allowed
  | 7 =>                                             -- SSH2_MSG_EXT_INFO
    if p.session_state ≠ .authenticating then .denied
    else if p.dh_handshake_state ≠ .finished then .denied
    else .allowed
  | 20 =>                                            -- SSH2_MSG_KEXINIT
    if p.session_state ≠ .authenticated ∧ p.session_state ≠ .initialKex then .denied
    else if p.dh_handshake_state ≠ .init ∧ p.dh_handshake_state ≠ .finished then .denied
    else .allowed
  | 21 =>                                            -- SSH2_MSG_NEWKEYS
    if p.session_state ≠ .dh then .denied
    else if p.dh_handshake_state ≠ .newkeysSent then .denied
    else .allowed
  | 30 =>                                            -- SSH2_MSG_KEXDH_INIT
    if p.session_state ≠ .dh then .denied
    else if p.dh_handshake_state ≠ .init then .denied
    else .allowed
  | 31 =>                                            -- SSH2_MSG_KEXDH_REPLY
    if p.session_state ≠ .dh then .denied
    else if p.dh_handshake_state ≠ .initSent then .denied
    else .allowed
  | 32 => .allowed                                   -- SSH2_MSG_KEX_DH_GEX_INIT (not filtered)
  | 33 => .allowed                                   -- SSH2_MSG_KEX_DH_GEX_REPLY (not filtered)
  | 34 => .allowed                                   -- SSH2_MSG_KEX_DH_GEX_REQUEST (not filtered)
  | 50 =>                                            -- SSH2_MSG_USERAUTH_REQUEST
    if p.role = .client then .denied
    else if p.dh_handshake_state ≠ .finished then .denied
    else if p.session_state ≠ .authenticating then .denied
    else .allowed
  | 51 =>                                            -- SSH2_MSG_USERAUTH_FAILURE
    if p.role = .server then .denied
    else if p.dh_handshake_state ≠ .finished then .denied
    else if p.session_state ≠ .authenticating then .denied
    else .allowed
  | 52 =>                                            -- SSH2_MSG_USERAUTH_SUCCESS
    if p.role = .server then .denied
    else if p.dh_handshake_state ≠ .finished then .denied
    else if p.session_state ≠ .authenticating then .denied
    else if p.auth_state ≠ .kbdintSent ∧ p.auth_state ≠ .pubkeyAuthSent ∧
            p.auth_state ≠ .passwordAuthSent ∧ p.auth_state ≠ .gssapiMicSent ∧
            p.auth_state ≠ .noneSent then .denied
    else .allowed
  | 53 =>                                            -- SSH2_MSG_USERAUTH_BANNER
    if p.session_state ≠ .authenticating then .denied
    else .allowed
  | 60 =>                                            -- SSH2_MSG_USERAUTH_PK_OK
    if p.session_state ≠ .authenticating then .denied
    else if p.auth_state ≠ .kbdintSent ∧ p.auth_state ≠ .pubkeyOfferSent ∧
            p.auth_state ≠ .gssapiRequestSent then .denied
    else .allowed
  | 61 =>                                            -- SSH2_MSG_USERAUTH_INFO_RESPONSE
    if p.session_state ≠ .authenticating then .denied
    else if p.auth_state ≠ .info ∧ p.auth_state ≠ .gssapiToken then .denied
    else .allowed
  | 63 => .allowed                                   -- GSSAPI_EXCHANGE_COMPLETE (not filtered)
  | 64 => .allowed                                   -- GSSAPI_ERROR (not filtered)
  | 65 => .allowed                                   -- GSSAPI_ERRTOK (not filtered)
  | 66 =>                                            -- SSH2_MSG_USERAUTH_GSSAPI_MIC
    if p.role = .client then .denied
    else if p.dh_handshake_state ≠ .finished then .denied
    else if p.session_state ≠ .authenticating then .denied
    else .allowed
  | 80 =>                                            -- SSH2_MSG_GLOBAL_REQUEST
    if p.session_state ≠ .authenticated then .denied
    else .allowed
  | 81 =>                                            -- SSH2_MSG_REQUEST_SUCCESS
    if p.session_state ≠ .authenticated then .denied
    else if p.global_req_state ≠ .pending then .denied
    else .allowed
  | 82 =>                                            -- SSH2_MSG_REQUEST_FAILURE
    if p.session_state ≠ .authenticated then .denied
    else if p.global_req_state ≠ .pending then .denied
    else .allowed
  | 90 =>                                            -- SSH2_MSG_CHANNEL_OPEN
    if p.session_state ≠ .authenticated then .denied
    else .allowed
  | 91 =>                                            -- SSH2_MSG_CHANNEL_OPEN_CONFIRMATION
    if p.session_state ≠ .authenticated then .denied
    else .allowed
  | 92 =>                                            -- SSH2_MSG_CHANNEL_OPEN_FAILURE
    if p.session_state ≠ .authenticated then .denied
    else .allowed
  | 93 =>                                            -- SSH2_MSG_CHANNEL_WINDOW_ADJUST
    if p.session_state ≠ .authenticated then .denied
    else .allowed
  | 94 =>                                            -- SSH2_MSG_CHANNEL_DATA
    if p.session_state ≠ .authenticated then .denied
    else .allowed
  | 95 =>                                            -- SSH2_MSG_CHANNEL_EXTENDED_DATA
    if p.session_state ≠ .authenticated then .denied
    else .allowed
  | 96 =>                                            -- SSH2_MSG_CHANNEL_EOF
    if p.session_state ≠ .authenticated then .denied
    else .allowed
  | 97 =>                                            -- SSH2_MSG_CHANNEL_CLOSE
    if p.session_state ≠ .authenticated then .denied
    else .allowed
  | 98 =>                                            -- SSH2_MSG_CHANNEL_REQUEST
    if p.session_state ≠ .authenticated then .denied
    else .allowed
  | 99 =>                                            -- SSH2_MSG_CHANNEL_SUCCESS
    if p.session_state ≠ .authenticated then .denied
    else .allowed
  | 100 =>                                           -- SSH2_MSG_CHANNEL_FAILURE
    if p.session_state ≠ .authenticated then .denied
    else .allowed
  | _ => .unknown

example : ssh_packet_incoming_filter 52
    ⟨.client, .authenticating, .finished, .noneSent, .none, .none, .none⟩ = .allowed := by
  decide

example : ssh_packet_incoming_filter 52
    ⟨.client, .authenticating, .finished, .info, .none, .none, .none⟩ = .denied := by
  decide

example : ssh_packet_incoming_filter 99
    ⟨.client, .authenticated, .finished, .success, .none, .none, .none⟩ = .allowed := by
  decide

/-- C1: the incoming state filter allows USERAUTH_SUCCESS (type 52) exactly
when the role is client, the DH handshake is FINISHED, the session state is
AUTHENTICATING and the auth state is one of KBDINT_SENT, PUBKEY_AUTH_SENT,
PASSWORD_AUTH_SENT, GSSAPI_MIC_SENT, NONE_SENT; in every other phase it
returns DENIED (never UNKNOWN), so a USERAUTH_SUCCESS cannot be smuggled
before authentication. -/
theorem C1_userauth_success_filter :
    ∀ p : SessionPhase,
      (ssh_packet_incoming_filter 52 p = .allowed ↔
        (p.role = .client ∧ p.dh_handshake_state = .finished ∧
         p.session_state = .authenticating ∧
         (p.auth_state = .kbdintSent ∨ p.auth_state = .pubkeyAuthSent ∨
          p.auth_state = .passwordAuthSent ∨ p.auth_state = .gssapiMicSent ∨
          p.auth_state = .noneSent))) ∧
      (ssh_packet_incoming_filter 52 p = .allowed ∨
       ssh_packet_incoming_filter 52 p = .denied) := by
  intro p
  have h : ssh_packet_incoming_filter 52 p =
      (if p.role = .server then .denied
       else if p.dh_handshake_state ≠ .finished then .denied
       else if p.session_state ≠ .authenticating then .denied
       else if p.auth_state ≠ .kbdintSent ∧ p.auth_state ≠ .pubkeyAuthSent ∧
               p.auth_state ≠ .passwordAuthSent ∧ p.auth_state ≠ .gssapiMicSent ∧
               p.auth_state ≠ .noneSent then .denied
       else .allowed) := rfl
  rw [h]
  split_ifs with h1 h2 h3 h4 <;> cases hr : p.role <;>
    simp_all [not_and_or, not_not] <;> tauto

/-- C2 counterexample: with session_state = AUTHENTICATED but the channel's
request_state NOT pending, the filter still returns ALLOWED for
CHANNEL_SUCCESS (99) — the source filter never consults
`channel->request_state`, contradicting the claim that it returns DENIED
unless that state is PENDING. -/
theorem C2_counterexample :
    ssh_packet_incoming_filter 99
      ⟨.client, .authenticated, .finished, .success, .none, .none, .none⟩ = .allowed ∧
    (⟨.client, .authenticated, .finished, .success, .none, .none, .none⟩ :
      SessionPhase).channel_request_state ≠ .pending := by
  decide

/-- C2 amended: with session_state = AUTHENTICATED the filter returns ALLOWED
for CHANNEL_SUCCESS (99) and CHANNEL_FAILURE (100) unconditionally — the
channel's request_state is never consulted by the filter — while
REQUEST_SUCCESS (81) and REQUEST_FAILURE (82) additionally require
global_req_state = PENDING; outside those conditions the filter returns
DENIED (never UNKNOWN) for these four types. -/
theorem C2_request_reply_filter :
    ∀ p : SessionPhase,
      (ssh_packet_incoming_filter 81 p = .allowed ↔
        p.session_state = .authenticated ∧ p.global_req_state = .pending) ∧
      (ssh_packet_incoming_filter 82 p = .allowed ↔
        p.session_state = .authenticated ∧ p.global_req_state = .pending) ∧
      (ssh_packet_incoming_filter 99 p = .allowed ↔
        p.session_state = .authenticated) ∧
      (ssh_packet_incoming_filter 100 p = .allowed ↔
        p.session_state = .authenticated) ∧
      (ssh_packet_incoming_filter 81 p = .allowed ∨
       ssh_packet_incoming_filter 81 p = .denied) ∧
      (ssh_packet_incoming_filter 82 p = .allowed ∨
       ssh_packet_incoming_filter 82 p = .denied) ∧
      (ssh_packet_incoming_filter 99 p = .allowed ∨
       ssh_packet_incoming_filter 99 p = .denied) ∧
      (ssh_packet_incoming_filter 100 p = .allowed ∨
       ssh_packet_incoming_filter 100 p = .denied) := by
  intro p
  have h81 : ssh_packet_incoming_filter 81 p =
      (if p.session_state ≠ .authenticated then .denied
       else if p.global_req_state ≠ .pending then .denied
       else .allowed) := rfl
  have h82 : ssh_packet_incoming_filter 82 p =
      (if p.session_state ≠ .authenticated then .denied
       else if p.global_req_state ≠ .pending then .denied
       else .allowed) := rfl
  have h99 : ssh_packet_incoming_filter 99 p =
      (if p.session_state ≠ .authenticated then .denied
       else .allowed) := rfl
  have h100 : ssh_packet_incoming_filter 100 p =
      (if p.session_state ≠ .authenticated then .denied
       else .allowed) := rfl
  rw [h81, h82, h99, h100]
  split_ifs with h1 h2 <;> simp_all [not_not]

/-! ## Outgoing framer (`packet_send2`) -/

/-- The padding computation of `packet_send2`:
`padding = (blocksize - ((blocksize - lenfield_blocksize + currentlen + 5) % blocksize))`,
then `if (padding < 4) padding += blocksize`. -/
def packetPadding (blocksize lenfield_blocksize currentlen : Nat) : Nat :=
  let padding := blocksize - ((blocksize - lenfield_blocksize + currentlen + 5) % blocksize)
  if padding < 4 then padding + blocksize else padding

/-- `finallen = currentlen + padding + 1` of `packet_send2` (`currentlen` is
the compressed payload length). -/
def packetFinalLen (blocksize lenfield_blocksize currentlen : Nat) : Nat :=
  currentlen + packetPadding blocksize lenfield_blocksize currentlen + 1

/-- Raw byte/packet counters (`struct ssh_counter_struct`, `uint64_t` fields). -/
structure RawCounter where
  in_bytes : Nat
  out_bytes : Nat
  in_packets : Nat
  out_packets : Nat
deriving DecidableEq, Repr

/-- The part of `current_crypto` that `packet_send2` consumes. `compress` and
`encrypt` are the black-box transforms behind `compress_buffer` and
`ssh_packet_encrypt` (`encrypt` returns the MAC trailer, or `none` when no
MAC is appended); `prngOk` is the result of `ssh_get_random` and `prngBytes`
the random padding it fills in. -/
structure OutCrypto where
  blocksize : Nat
  lenfield_blocksize : Nat
  do_compress_out : Bool
  compress : List Nat → Option (List Nat)
  encrypt : List Nat → Option (List Nat)
  macsize : Nat
  prngOk : Bool
  prngBytes : Nat → List Nat

/-- The send-side session state that `packet_send2` reads and writes. -/
structure OutSession where
  current_crypto : Option OutCrypto
  out_buffer : List Nat
  send_seq : Nat
  raw_counter : Option RawCounter

/-- Big-endian `uint32` byte encoding (`ssh_buffer_pack "d"`). -/
def be32bytes (n : Nat) : List Nat :=
  [n / 16777216 % 256, n / 65536 % 256, n / 256 % 256, n % 256]

/-- `packet_send2` (src/packet.c): compress the payload if enabled, compute
the padding, draw the random pad bytes, prepend the `[u32 finallen, u8
padding]` header, encrypt in place, append the MAC if one is returned, write
to the socket (the write result `writeRc` is a parameter of the model —
ciphertext bytes go to the socket only and are not retained), then
increment `send_seq`, update the raw counters and reinit `out_buffer` —
all after the write, regardless of its result. Returns the new state and
the function's `rc`. -/
def packet_send2 (s : OutSession) (writeRc : Int) : OutSession × Int :=
  let blocksize := match s.current_crypto with | some c => c.blocksize | none => 8
  let lenfield_blocksize :=
    match s.current_crypto with | some c => c.lenfield_blocksize | none => 0
  let payloadsize := s.out_buffer.length
  -- WITH_ZLIB: compress_buffer when do_compress_out and the buffer is non-empty
  let compressed : Option (List Nat) :=
    match s.current_crypto with
    | some c =>
      if c.do_compress_out ∧ s.out_buffer.length ≠ 0 then c.compress s.out_buffer
      else some s.out_buffer
    | none => some s.out_buffer
  match compressed with
  | none => (s, -1)                      -- goto error, rc = SSH_ERROR
  | some payload =>
    let currentlen := payload.length
    let padding := packetPadding blocksize lenfield_blocksize currentlen
    let prngFail : Bool :=
      match s.current_crypto with | some c => !c.prngOk | none => false
    if prngFail then (s, -1)             -- "PRNG error", goto error
    else
      let padstring : List Nat :=
        match s.current_crypto with
        | some c => (c.prngBytes padding ++ List.replicate padding 0).take padding
        | none => List.replicate padding 0
      let finallen := currentlen + padding + 1
      let header := be32bytes finallen ++ [padding % 256]
      let wire := header ++ payload ++ padstring
      let macOpt := match s.current_crypto with
        | some c => c.encrypt wire
        | none => none
      let _wire := wire ++ (match macOpt with | some m => m | none => [])
      -- rc = ssh_packet_write(session); then the post-write updates:
      ({ s with
          out_buffer := [],
          send_seq := u32 (s.send_seq + 1),
          raw_counter := match s.raw_counter with
            | some r => some { r with
                out_bytes := u64 (r.out_bytes + payloadsize),
                out_packets := u64 (r.out_packets + 1) }
            | none => none },
       writeRc)

/-- C5: for every payload length and non-AEAD configuration
(`lenfield_blocksize = 0`, which is every non-AEAD cipher and the pre-KEX
`blocksize = 8` case), the padding chosen by `packet_send2` is at least 4
and the resulting `finallen` satisfies `(finallen + 4) % blocksize = 0`. -/
theorem C5_padding_multiple (blocksize payload : Nat) (hb : 4 ≤ blocksize) :
    4 ≤ packetPadding blocksize 0 payload ∧
    (packetFinalLen blocksize 0 payload + 4) % blocksize = 0 := by
  have hbpos : 0 < blocksize := by omega
  have hd := Nat.div_add_mod (payload + 5) blocksize
  have hlt : (payload + 5) % blocksize < blocksize := Nat.mod_lt _ hbpos
  have hmodeq : (blocksize - 0 + payload + 5) % blocksize = (payload + 5) % blocksize := by
    have hx : blocksize - 0 + payload + 5 = blocksize + (payload + 5) := by omega
    rw [hx, Nat.add_mod_left]
  simp only [packetPadding, packetFinalLen, hmodeq]
  split_ifs with hp
  · constructor
    · omega
    · have hy : payload + (blocksize - (payload + 5) % blocksize + blocksize) + 1 + 4 =
          blocksize * ((payload + 5) / blocksize) + blocksize + blocksize := by omega
      rw [hy]
      have hz : blocksize * ((payload + 5) / blocksize) + blocksize + blocksize =
          blocksize * ((payload + 5) / blocksize + 2) := by ring
      rw [hz, Nat.mul_mod_right]
  · constructor
    · omega
    · have hy : payload + (blocksize - (payload + 5) % blocksize) + 1 + 4 =
          blocksize * ((payload + 5) / blocksize) + blocksize := by omega
      rw [hy]
      have hz : blocksize * ((payload + 5) / blocksize) + blocksize =
          blocksize * ((payload + 5) / blocksize + 1) := by ring
      rw [hz, Nat.mul_mod_right]

/-- C5 witness: the pre-KEX configuration blocksize 8, payload 7. -/
theorem C5_padding_multiple_witness :
    (4 ≤ 8) ∧
    (4 ≤ packetPadding 8 0 7 ∧ (packetFinalLen 8 0 7 + 4) % 8 = 0) :=
  ⟨by decide, C5_padding_multiple 8 7 (by decide)⟩

/-- C10: whenever `packet_send2` gets past compression and the PRNG (i.e.
completes header building and encryption), it increments `send_seq` by one
(mod 2^32), updates the raw out-counters, and empties `out_buffer`, even
when the socket write returns an error; the write's result is passed
through as the function's `rc`. -/
theorem C10_send_commits_regardless_of_write (s : OutSession) (writeRc : Int)
    (hok : match s.current_crypto with
      | some c =>
        (c.do_compress_out ∧ s.out_buffer.length ≠ 0 →
          (c.compress s.out_buffer).isSome) ∧ c.prngOk = true
      | none => True) :
    (packet_send2 s writeRc).1.send_seq = u32 (s.send_seq + 1) ∧
    (packet_send2 s writeRc).1.out_buffer = [] ∧
    (packet_send2 s writeRc).1.raw_counter = (match s.raw_counter with
      | some r => some { r with
          out_bytes := u64 (r.out_bytes + s.out_buffer.length),
          out_packets := u64 (r.out_packets + 1) }
      | none => none) ∧
    (packet_send2 s writeRc).2 = writeRc := by
  match hc : s.current_crypto with
  | none =>
    simp [packet_send2, hc]
  | some c =>
    rw [hc] at hok
    obtain ⟨hcomp, hprng⟩ := hok
    simp only [ne_eq, List.length_eq_zero] at hcomp
    by_cases hdo : c.do_compress_out = true ∧ ¬s.out_buffer = []
    · obtain ⟨pl, hpl⟩ := Option.isSome_iff_exists.mp (hcomp hdo)
      simp [packet_send2, hc, hdo, hpl, hprng]
    · simp [packet_send2, hc, hdo, hprng]

/-- C10 witness: pre-KEX session with payload `[2]`, failing socket write. -/
theorem C10_send_commits_regardless_of_write_witness :
    (packet_send2 ⟨none, [2], 0, some ⟨0, 0, 0, 0⟩⟩ (-1)).1.send_seq = u32 (0 + 1) ∧
    (packet_send2 ⟨none, [2], 0, some ⟨0, 0, 0, 0⟩⟩ (-1)).1.out_buffer = [] ∧
    (packet_send2 ⟨none, [2], 0, some ⟨0, 0, 0, 0⟩⟩ (-1)).1.raw_counter =
      (match (⟨none, [2], 0, some ⟨0, 0, 0, 0⟩⟩ : OutSession).raw_counter with
        | some r => some { r with
            out_bytes := u64 (r.out_bytes + [2].length),
            out_packets := u64 (r.out_packets + 1) }
        | none => none) ∧
    (packet_send2 ⟨none, [2], 0, some ⟨0, 0, 0, 0⟩⟩ (-1)).2 = -1 :=
  C10_send_commits_regardless_of_write ⟨none, [2], 0, some ⟨0, 0, 0, 0⟩⟩ (-1) trivial

/-! ## zlib decompression (`_gzip_decompress`, src/gzip.c) -/

def Z_OK : Int := 0

def Z_BUF_ERROR : Int := -5

/-- Outcome of the `_gzip_decompress` inflate loop. `done n` carries
`*dest_len = out_maxlen - avail_out`; `corrupt s` is the fatal
"status %d inflating zlib packet" exit; `overflow c` is the fatal
"Excessive growth in decompression phase" exit, carrying the buffer
capacity `out_maxlen` at that point; `starved` marks exhaustion of the
modelled inflate trace (real zlib always returns a status, so a long
enough trace never starves). -/
inductive InflateOutcome
  | done (len : Nat)
  | corrupt (status : Int)
  | overflow (cap : Nat)
  | starved
deriving DecidableEq, Repr

/-- The `for (;;)` inflate loop of `_gzip_decompress`. Each `inflate` call
is modelled by one trace element `(status, produced)`: the zlib status and
the number of bytes written into the output buffer (clamped to `avail_out`,
which zlib never exceeds). Loop state is `(cap, avail)` =
`(out_maxlen, avail_out)`; on growth the buffer doubles and the new
`avail_out` is `2*cap - out_ofs = cap`. -/
def inflateLoop (maxlen : Nat) : List (Int × Nat) → Nat → Nat → InflateOutcome
  | [], _, _ => .starved
  | (status, produced) :: rest, cap, avail =>
    let avail' := avail - min produced avail
    if status = Z_OK then
      if 0 < avail' then .done (cap - avail')
      else if maxlen ≤ cap then .overflow cap
      else inflateLoop maxlen rest (2 * cap) cap
    else if status = Z_BUF_ERROR then .done (cap - avail')
    else .corrupt status

/-- `_gzip_decompress` (src/gzip.c): the output buffer starts at
`4 * in_size` bytes, at least 25, clamped to `maxlen`, then runs the
inflate loop. -/
def gzip_decompress (maxlen in_size : Nat) (trace : List (Int × Nat)) : InflateOutcome :=
  let cap0 := min (max (4 * in_size) 25) maxlen
  inflateLoop maxlen trace cap0 cap0

theorem inflateLoop_cons (maxlen : Nat) (status : Int) (produced : Nat)
    (rest : List (Int × Nat)) (cap avail : Nat) :
    inflateLoop maxlen ((status, produced) :: rest) cap avail =
      (if status = Z_OK then
        if 0 < avail - min produced avail then .done (cap - (avail - min produced avail))
        else if maxlen ≤ cap then .overflow cap
        else inflateLoop maxlen rest (2 * cap) cap
      else if status = Z_BUF_ERROR then .done (cap - (avail - min produced avail))
      else .corrupt status) := rfl

/-- C6 counterexample: a decompression whose accumulated output (37600
bytes) exceeds `max_out = MAX_PACKET_LEN = 35000` yet succeeds — the
capacity check happens only before doubling, so `out_maxlen` can double
past `maxlen` and the final extract exceeds the bound without any failure.
Hence "fails exactly when the accumulated output would exceed max_out" is
false. -/
theorem C6_counterexample :
    gzip_decompress MAX_PACKET_LEN 1
      [(Z_OK, 25), (Z_OK, 25), (Z_OK, 50), (Z_OK, 100), (Z_OK, 200),
       (Z_OK, 400), (Z_OK, 800), (Z_OK, 1600), (Z_OK, 3200), (Z_OK, 6400),
       (Z_OK, 12800), (Z_OK, 12000)] = .done 37600 ∧
    MAX_PACKET_LEN < 37600 := by
  decide

/-- C6 amended: the inflate loop fails with DECOMP_CORRUPT exactly on an
inflate status other than Z_OK / Z_BUF_ERROR (the status is one returned by
the trace); it fails with the overflow error only when a Z_OK call exhausts
an output buffer whose capacity has already reached `maxlen` (so the
capacity at failure is at least `maxlen`; because capacity doubles, a
success may still return more than `maxlen` bytes); and a Z_BUF_ERROR
status terminates the loop successfully at once — "input exhausted" — even
if output is not fully flushed and whatever trace would follow. -/
theorem C6_decompress_errors :
    (∀ (maxlen : Nat) (trace : List (Int × Nat)) (cap avail : Nat) (st : Int),
      inflateLoop maxlen trace cap avail = .corrupt st →
      st ≠ Z_OK ∧ st ≠ Z_BUF_ERROR ∧ st ∈ trace.map Prod.fst) ∧
    (∀ (maxlen : Nat) (trace : List (Int × Nat)) (cap avail c : Nat),
      inflateLoop maxlen trace cap avail = .overflow c → maxlen ≤ c) ∧
    (∀ (maxlen w : Nat) (rest : List (Int × Nat)) (cap avail : Nat),
      inflateLoop maxlen ((Z_BUF_ERROR, w) :: rest) cap avail =
        .done (cap - (avail - min w avail))) := by
  refine ⟨?_, ?_, ?_⟩
  · intro maxlen trace
    induction trace with
    | nil => intro cap avail st h; simp [inflateLoop] at h
    | cons head rest ih =>
      obtain ⟨status, produced⟩ := head
      intro cap avail st h
      rw [inflateLoop_cons] at h
      by_cases hA : status = Z_OK
      · rw [if_pos hA] at h
        by_cases hB : 0 < avail - min produced avail
        · rw [if_pos hB] at h; cases h
        · rw [if_neg hB] at h
          by_cases hC : maxlen ≤ cap
          · rw [if_pos hC] at h; cases h
          · rw [if_neg hC] at h
            obtain ⟨hne, hne2, hmem⟩ := ih _ _ _ h
            exact ⟨hne, hne2,
              by simp only [List.map_cons]; exact List.mem_cons_of_mem _ hmem⟩
      · rw [if_neg hA] at h
        by_cases hD : status = Z_BUF_ERROR
        · rw [if_pos hD] at h; cases h
        · rw [if_neg hD] at h
          cases h
          exact ⟨hA, hD, by simp⟩
  · intro maxlen trace
    induction trace with
    | nil => intro cap avail c h; simp [inflateLoop] at h
    | cons head rest ih =>
      obtain ⟨status, produced⟩ := head
      intro cap avail c h
      rw [inflateLoop_cons] at h
      by_cases hA : status = Z_OK
      · rw [if_pos hA] at h
        by_cases hB : 0 < avail - min produced avail
        · rw [if_pos hB] at h; cases h
        · rw [if_neg hB] at h
          by_cases hC : maxlen ≤ cap
          · rw [if_pos hC] at h
            cases h
            exact hC
          · rw [if_neg hC] at h
            exact ih _ _ _ h
      · rw [if_neg hA] at h
        by_cases hD : status = Z_BUF_ERROR
        · rw [if_pos hD] at h; cases h
        · rw [if_neg hD] at h; cases h
  · intro maxlen w rest cap avail
    have hne : Z_BUF_ERROR ≠ Z_OK := by decide
    simp [inflateLoop, hne]

/-- C6 witness: the corrupt branch at a concrete one-step trace with zlib
status Z_DATA_ERROR = -3, and the Z_BUF_ERROR early-exit at a concrete
state. -/
theorem C6_decompress_errors_witness :
    ((-3 : Int) ≠ Z_OK ∧ (-3 : Int) ≠ Z_BUF_ERROR ∧
      (-3 : Int) ∈ ([((-3 : Int), (0 : Nat))].map Prod.fst)) ∧
    inflateLoop 35000 [(Z_BUF_ERROR, 7)] 25 25 = .done (25 - (25 - min 7 25)) :=
  ⟨C6_decompress_errors.1 35000 [((-3 : Int), (0 : Nat))] 25 25 (-3) (by decide),
   C6_decompress_errors.2.2 35000 7 [] 25 25⟩

/-! ## Incoming framer and socket feed (`ssh_packet_socket_callback`) -/

/-- `enum ssh_packet_state_e`. -/
inductive PacketState
  | init
  | sizeread
  | processing
deriving DecidableEq, Repr

/-- The receive-side crypto context: the fields of `current_crypto` that the
feed path consumes. `decryptLenBlock` is the cipher step inside
`ssh_packet_decrypt_len` (first `lenfield_blocksize` bytes); `decryptRest`
is `ssh_packet_decrypt` on the packet remainder (modelled total — its
failure path is not exercised here); `hmacOk` is `ssh_packet_hmac_verify`;
`decompress` is the zlib inflate behind `decompress_buffer` (`none` =
failure). All are black-box collaborators per the spec. -/
structure InCrypto where
  blocksize : Nat
  lenfield_blocksize : Nat
  macsize : Nat
  decryptLenBlock : List Nat → List Nat
  decryptRest : List Nat → List Nat
  hmacOk : List Nat → List Nat → Bool
  do_compress_in : Bool
  decompress : List Nat → Option (List Nat)

/-- The receive-side session state touched by `ssh_packet_socket_callback`,
plus the phase consulted by the state filter. `in_packet_len`,
`in_packet_type`, `in_packet_valid` are `session->in_packet`. -/
structure Session where
  phase : SessionPhase
  packet_state : PacketState
  in_packet_len : Nat
  in_packet_type : Nat
  in_packet_valid : Bool
  in_buffer : List Nat
  recv_seq : Nat
  raw_counter : Option RawCounter
  current_crypto : Option InCrypto

/-- Observable events of one feed call: a packet handler invocation
(`ssh_packet_process` firing a registered callback) or an UNIMPLEMENTED
reply (`ssh_packet_send_unimplemented`, whose egress through
`packet_send2` is modelled separately). -/
inductive Event
  | handlerInvoked (ptype : Nat)
  | unimplementedSent (seq : Nat)
deriving DecidableEq, Repr

/-- One handler table (`struct ssh_packet_callbacks_struct`): `start` and the
callback array (`n_callbacks = callbacks.length`). A handler maps the
session to a new session and USED (`true`) / NOT_USED (`false`). -/
structure PacketCallbacks where
  start : Nat
  callbacks : List (Option (Session → Session × Bool))

/-- Big-endian u32 read from the first four bytes of a list (the value
`ssh_packet_decrypt_len` returns from the decrypted first block). -/
def be32 (l : List Nat) : Nat :=
  l.getD 0 0 * 16777216 + l.getD 1 0 * 65536 + l.getD 2 0 * 256 + l.getD 3 0

def sessionBlocksize (s : Session) : Nat :=
  match s.current_crypto with | some c => c.blocksize | none => 8

/-- `lenfield_blocksize` after the `if (lenfield_blocksize == 0)
lenfield_blocksize = blocksize;` fix-up at the top of the callback. -/
def sessionLenfield (s : Session) : Nat :=
  let l := match s.current_crypto with | some c => c.lenfield_blocksize | none => 8
  if l = 0 then sessionBlocksize s else l

def sessionMacsize (s : Session) : Nat :=
  match s.current_crypto with | some c => c.macsize | none => 0

/-- Modelled from the spec: `ssh_packet_decrypt_len` lives in packet_crypt.c,
which is not under src/; per spec §4.3 it "decrypts exactly
lenfield_blocksize bytes, returning the big-endian u32 at offset 0 of the
result", and with no crypto active it copies the plaintext block. This
returns the cleartext first block that is written into `in_buffer`;
the length value is `be32` of it. -/
def ssh_packet_decrypt_len (s : Session) (data : List Nat) : List Nat :=
  match s.current_crypto with
  | some c => c.decryptLenBlock (data.take (sessionLenfield s))
  | none => data.take (sessionLenfield s)

/-- The cleartext of the packet past the length-field block, for a packet of
length `L`: `packet_remaining = L - (lenfield_blocksize - 4)` bytes, produced
by `ssh_packet_decrypt` on the ciphertext when crypto is active (nothing is
decrypted when nothing remains), and by the plain `memcpy` otherwise. -/
def packetTailAt (s : Session) (data : List Nat) (L : Nat) : List Nat :=
  let lenfield := sessionLenfield s
  let packet_remaining := L - (lenfield - 4)
  match s.current_crypto with
  | some c =>
    if 0 < packet_remaining then
      c.decryptRest ((data.drop lenfield).take packet_remaining)
    else []
  | none => (data.drop lenfield).take packet_remaining

/-- The MAC trailer on the wire for a packet of length `L`: the
`current_macsize` bytes following the encrypted packet body
(`mac = packet_second_block + packet_remaining`). -/
def packetMacAt (s : Session) (data : List Nat) (L : Nat) : List Nat :=
  (data.drop (sessionLenfield s + (L - (sessionLenfield s - 4)))).take (sessionMacsize s)

/-- `ssh_packet_hmac_verify`'s verdict over the assembled cleartext buffer and
the received MAC; vacuously true when no crypto is active (the source skips
the check). -/
def packetMacOk (s : Session) (buf mac : List Nat) : Bool :=
  match s.current_crypto with
  | some c => c.hmacOk buf mac
  | none => true

/-- The `decompress_buffer` gating of the feed (packet.c, WITH_ZLIB): with
crypto active, `do_compress_in` set and a non-empty buffer, run the zlib
inflate (`none` = failure); otherwise the buffer passes through unchanged. -/
def decompressedPayload (s : Session) (l : List Nat) : Option (List Nat) :=
  match s.current_crypto with
  | some c => if c.do_compress_in ∧ 0 < l.length then c.decompress l else some l
  | none => some l

/-- The table-iteration loop of `ssh_packet_process`: fire matching non-null
entries in registration order until one returns SSH_PACKET_USED; the flag
reports whether any handler returned USED. -/
def processTables : List PacketCallbacks → Session → Nat → Session × List Event × Bool
  | [], s, _ => (s, [], false)
  | cb :: rest, s, t =>
    if cb.start > t then processTables rest s t
    else if cb.start + cb.callbacks.length ≤ t then processTables rest s t
    else match cb.callbacks.getD (t - cb.start) none with
      | none => processTables rest s t
      | some handler =>
        let r := handler s
        if r.2 then (r.1, [Event.handlerInvoked t], true)
        else
          let res := processTables rest r.1 t
          (res.1, Event.handlerInvoked t :: res.2.1, res.2.2)

/-- `ssh_packet_process` (src/packet.c): dispatch to the handler tables; if
every handler returned SSH_PACKET_NOT_USED, send UNIMPLEMENTED carrying
`recv_seq - 1`. -/
def ssh_packet_process (reg : List PacketCallbacks) (s : Session) (t : Nat) :
    Session × List Event :=
  let r := processTables reg s t
  if r.2.2 then (r.1, r.2.1)
  else (r.1, r.2.1 ++ [Event.unimplementedSent (u32sub1 r.1.recv_seq)])

/-- The `error:` label of `ssh_packet_socket_callback`: set
`session_state = SSH_SESSION_STATE_ERROR` and return `processed`. -/
def feedError (s : Session) (processed : Nat) (evs : List Event) :
    Session × Nat × List Event :=
  ({ s with phase := { s.phase with session_state := .error } }, processed, evs)

/-- The tail of the SIZEREAD stage, from "skip the size field" on: read the
padding byte, validate it, strip the padding from the end, decompress when
enabled, bump `recv_seq` and the raw counters, parse the type byte
(`ssh_packet_parse_type` — its error return is ignored by the caller, as in
the source), run the state filter and dispatch. The `Bool` is true when a
whole packet was consumed and the caller should look at leftover bytes. -/
def feedPayload (reg : List PacketCallbacks) (s : Session) (processed : Nat) :
    (Session × Nat × List Event) × Bool :=
  let buf0 := s.in_buffer.drop 4          -- ssh_buffer_pass_bytes(in_buffer, 4)
  match buf0 with
  | [] =>
    -- ssh_buffer_get_u8 found no byte: "Packet too short to read padding"
    (feedError { s with in_buffer := buf0 } processed [], false)
  | padding :: buf1 =>
    if buf1.length < padding then
      -- "Invalid padding"
      (feedError { s with in_buffer := buf1 } processed [], false)
    else
      let buf2 := buf1.take (buf1.length - padding)  -- ssh_buffer_pass_bytes_end
      -- WITH_ZLIB: decompress_buffer(session, in_buffer, MAX_PACKET_LEN)
      match decompressedPayload s buf2 with
      | none => (feedError { s with in_buffer := buf2 } processed [], false)
      | some buf3 =>
        let payloadsize := buf3.length
        let s1 := { s with
          in_buffer := buf3,
          recv_seq := u32 (s.recv_seq + 1),
          raw_counter := match s.raw_counter with
            | some r => some { r with
                in_bytes := u64 (r.in_bytes + payloadsize),
                in_packets := u64 (r.in_packets + 1) }
            | none => none,
          packet_state := .processing,
          -- ssh_packet_parse_type starts by zeroing in_packet
          in_packet_len := 0, in_packet_type := 0, in_packet_valid := false }
        let s2 :=
          match buf3 with
          | t :: rest =>
            { s1 with in_packet_type := t, in_packet_valid := true, in_buffer := rest }
          | [] => s1   -- parse returns SSH_ERROR; the caller ignores it
        match ssh_packet_incoming_filter s2.in_packet_type s2.phase with
        | .allowed =>
          let pr := ssh_packet_process reg s2 s2.in_packet_type
          (({ pr.1 with packet_state := .init }, processed, pr.2), true)
        | .denied => (feedError s2 processed [], false)
        | .unknown =>
          (({ s2 with packet_state := .init },
            processed,
            [Event.unimplementedSent (u32sub1 s2.recv_seq)]), true)

/-- The SIZEREAD stage of `ssh_packet_socket_callback`: check that the whole
packet (and MAC) is available, decrypt the remainder and verify the MAC
when crypto is active (plain copy otherwise), then hand over to
`feedPayload`. (`to_be_read = packet_len + 4 + macsize` is never zero, so
the dead `to_be_read == 0` branch of the source is not represented.) -/
def feedPacket (reg : List PacketCallbacks) (s : Session) (data : List Nat) :
    (Session × Nat × List Event) × Bool :=
  let macsize := sessionMacsize s
  let packet_len := s.in_packet_len
  let to_be_read := packet_len + 4 + macsize
  if data.length < to_be_read then ((s, 0, []), false)   -- partial packet, give up
  else
    let processed := packet_len + 4                       -- to_be_read - macsize
    let buf := s.in_buffer ++ packetTailAt s data packet_len
    match s.current_crypto with
    | some c =>
      if c.hmacOk buf (packetMacAt s data packet_len) then
        feedPayload reg { s with in_buffer := buf } (processed + macsize)
      else (feedError { s with in_buffer := buf } processed [], false)  -- "HMAC error"
    | none =>
      feedPayload reg { s with in_buffer := buf } processed

/-- `ssh_packet_socket_callback` with explicit recursion fuel. The source
recurses on the bytes left after each complete packet; the fuel bounds that
recursion depth, and the top-level wrapper supplies `data.length + 1`,
which the recursion never exhausts for positive block sizes because every
round consumes at least one byte before recursing. Returns
(new session, number of bytes processed, events). -/
def feed (reg : List PacketCallbacks) :
    Nat → Session → List Nat → Session × Nat × List Event
  | 0, s, _ => (s, 0, [])
  | fuel + 1, s, data =>
    if s.phase.session_state = .error then feedError s 0 []
    else
      match s.packet_state with
      | .processing =>
        -- "Nested packet processing. Delaying." — consume nothing
        (s, 0, [])
      | .init =>
        if data.length < sessionLenfield s then (s, 0, [])  -- wait for more data
        else
          -- in_packet = {.type = 0}; ssh_buffer_reinit(in_buffer);
          -- ptr = ssh_buffer_allocate(lenfield); decrypt_len
          let block := ssh_packet_decrypt_len s data
          let s1 := { s with in_packet_type := 0, in_packet_valid := false,
                             in_packet_len := 0, in_buffer := block }
          let packet_len := be32 block
          if MAX_PACKET_LEN < packet_len then
            feedError s1 (sessionLenfield s) []            -- "Packet len too high"
          else if (packet_len : Int) - (sessionLenfield s : Int) + 4 < 0 then
            feedError s1 (sessionLenfield s) []            -- negative to_be_read
          else
            let step := feedPacket reg
              { s1 with in_packet_len := packet_len, packet_state := .sizeread } data
            if step.2 ∧ step.1.2.1 < data.length then
              let r := feed reg fuel step.1.1 (data.drop step.1.2.1)
              (r.1, step.1.2.1 + r.2.1, step.1.2.2 ++ r.2.2)
            else step.1
      | .sizeread =>
        let step := feedPacket reg s data
        if step.2 ∧ step.1.2.1 < data.length then
          let r := feed reg fuel step.1.1 (data.drop step.1.2.1)
          (r.1, step.1.2.1 + r.2.1, step.1.2.2 ++ r.2.2)
        else step.1

/-- `ssh_packet_socket_callback` (src/packet.c): the socket data callback. -/
def ssh_packet_socket_callback (reg : List PacketCallbacks) (s : Session)
    (data : List Nat) : Session × Nat × List Event :=
  feed reg (data.length + 1) s data

/-- A fresh pre-KEX client phase. -/
def phase0 : SessionPhase :=
  ⟨.client, .initialKex, .init, .noneSent, .none, .none, .none⟩

/-- A fresh pre-KEX client session: INIT framer, empty buffer, no crypto. -/
def sess0 : Session := ⟨phase0, .init, 0, 0, false, [], 0, none, none⟩

/-- Type value 0 (which `ssh_packet_parse_type` leaves in place when the
payload is empty) falls into the filter's `default:` case. -/
theorem filter_zero_unknown (p : SessionPhase) :
    ssh_packet_incoming_filter 0 p = .unknown := rfl

/-- `u32sub1` undoes the increment `u32 (r + 1)` for an in-range `uint32`. -/
theorem u32sub1_u32_succ (r : Nat) (h : r < 4294967296) :
    u32sub1 (u32 (r + 1)) = r := by
  simp only [u32, u32sub1, Nat.mod_add_mod]
  have h1 : r + 1 + 4294967295 = r + 4294967296 := by omega
  rw [h1, Nat.add_mod_right, Nat.mod_eq_of_lt h]

/-- A feed with no bytes in the INIT state consumes nothing. -/
theorem feed_nil (reg : List PacketCallbacks) (fuel : Nat) (s : Session)
    (herr : s.phase.session_state ≠ .error) (hst : s.packet_state = .init)
    (hlf : 0 < sessionLenfield s) :
    feed reg fuel s [] = (s, 0, []) := by
  cases fuel with
  | zero => rfl
  | succ n => simp [feed, herr, hst, hlf]

/-- The tail of the SIZEREAD stage on an assembled cleartext in-buffer
`c0c1c2c3 ‖ pad ‖ rest1` whose payload after padding removal (and after
decompression when enabled) begins with a type byte `t` that the filter
reports UNKNOWN: padding is stripped, `recv_seq` and the counters are
bumped, the type is parsed, and one UNIMPLEMENTED carrying `recv_seq - 1`
is recorded; the packet counts as fully consumed. Holds for any crypto
configuration. -/
theorem feedPayload_unknown (reg : List PacketCallbacks) (s : Session)
    (processed c0 c1 c2 c3 pad t : Nat) (rest1 payloadRest : List Nat)
    (hbuf : s.in_buffer = c0 :: c1 :: c2 :: c3 :: pad :: rest1)
    (hpad : pad ≤ rest1.length)
    (hdec : decompressedPayload s (rest1.take (rest1.length - pad))
      = some (t :: payloadRest))
    (hfilter : ssh_packet_incoming_filter t s.phase = .unknown) :
    feedPayload reg s processed =
      (({ s with
          in_packet_len := 0, in_packet_type := t, in_packet_valid := true,
          in_buffer := payloadRest,
          recv_seq := u32 (s.recv_seq + 1),
          raw_counter := match s.raw_counter with
            | some r => some { r with
                in_bytes := u64 (r.in_bytes + (payloadRest.length + 1)),
                in_packets := u64 (r.in_packets + 1) }
            | none => none,
          packet_state := .init },
        processed,
        [Event.unimplementedSent (u32sub1 (u32 (s.recv_seq + 1)))]), true) := by
  have hdrop4 : (c0 :: c1 :: c2 :: c3 :: pad :: rest1).drop 4 = pad :: rest1 := rfl
  have hnlt : ¬ (rest1.length < pad) := by omega
  simp only [feedPayload, hbuf, hdrop4]
  rw [if_neg hnlt, hdec]
  simp only [List.length_cons, hfilter]

/-- The tail of the SIZEREAD stage on an assembled cleartext in-buffer whose
payload after padding removal (and after decompression when enabled) is
zero bytes: `ssh_packet_parse_type` fails but its return value is ignored,
so the packet is handled as type 0 with `in_packet.valid` still false, the
filter reports UNKNOWN, and one UNIMPLEMENTED is sent; no error is raised.
Holds for any crypto configuration. -/
theorem feedPayload_zeroPayload (reg : List PacketCallbacks) (s : Session)
    (processed c0 c1 c2 c3 pad : Nat) (rest1 : List Nat)
    (hbuf : s.in_buffer = c0 :: c1 :: c2 :: c3 :: pad :: rest1)
    (hpad : pad ≤ rest1.length)
    (hdec : decompressedPayload s (rest1.take (rest1.length - pad)) = some []) :
    feedPayload reg s processed =
      (({ s with
          in_packet_len := 0, in_packet_type := 0, in_packet_valid := false,
          in_buffer := [],
          recv_seq := u32 (s.recv_seq + 1),
          raw_counter := match s.raw_counter with
            | some r => some { r with
                in_bytes := u64 (r.in_bytes + 0),
                in_packets := u64 (r.in_packets + 1) }
            | none => none,
          packet_state := .init },
        processed,
        [Event.unimplementedSent (u32sub1 (u32 (s.recv_seq + 1)))]), true) := by
  have hdrop4 : (c0 :: c1 :: c2 :: c3 :: pad :: rest1).drop 4 = pad :: rest1 := rfl
  have hnlt : ¬ (rest1.length < pad) := by omega
  simp only [feedPayload, hbuf, hdrop4]
  rw [if_neg hnlt, hdec]
  simp only [List.length_nil, filter_zero_unknown]

/-- The SIZEREAD stage for any crypto configuration: when the whole packet
(and MAC trailer) is in the feed and the MAC verifies (vacuously pre-KEX),
the cleartext tail is assembled onto the in-buffer and the payload stage
runs with `processed = packet_len + 4 + macsize`. -/
theorem feedPacket_step (reg : List PacketCallbacks) (s : Session)
    (data : List Nat)
    (hge : s.in_packet_len + 4 + sessionMacsize s ≤ data.length)
    (hmac : packetMacOk s (s.in_buffer ++ packetTailAt s data s.in_packet_len)
      (packetMacAt s data s.in_packet_len) = true) :
    feedPacket reg s data =
      feedPayload reg
        { s with in_buffer := s.in_buffer ++ packetTailAt s data s.in_packet_len }
        (s.in_packet_len + 4 + sessionMacsize s) := by
  have hnlt : ¬ (data.length < s.in_packet_len + 4 + sessionMacsize s) := by omega
  match hc : s.current_crypto with
  | none =>
    have hm0 : sessionMacsize s = 0 := by simp [sessionMacsize, hc]
    simp only [feedPacket, hc]
    rw [if_neg hnlt, hm0]
  | some c =>
    simp only [packetMacOk, hc] at hmac
    simp only [feedPacket, hc]
    rw [if_neg hnlt, if_pos hmac]

/-- C9: a feed arriving while the framer state is PROCESSING (a handler
synchronously triggering a nested ingress feed) returns 0 consumed, fires
nothing, and leaves the whole receive state — packet_state, in_packet,
in_buffer, recv_seq — unchanged. -/
theorem C9_nested_feed_noop (reg : List PacketCallbacks) (s : Session)
    (data : List Nat) (h : s.packet_state = .processing) :
    ssh_packet_socket_callback reg s data = (s, 0, []) := by
  obtain ⟨⟨ro, ss, dh, au, asv, gr, crq⟩, ps, l, t, v, ib, rs, rc, cr⟩ := s
  simp only at h
  subst h
  by_cases hss : ss = SessionState.error
  · subst hss
    simp [ssh_packet_socket_callback, feed, feedError]
  · simp [ssh_packet_socket_callback, feed, feedError, hss]

/-- C9 witness: a processing-state session fed three bytes. -/
theorem C9_nested_feed_noop_witness :
    ssh_packet_socket_callback [] { sess0 with packet_state := .processing }
      [1, 2, 3] = ({ sess0 with packet_state := .processing }, 0, []) :=
  C9_nested_feed_noop [] { sess0 with packet_state := .processing } [1, 2, 3] rfl

/-- C3: a feed in the INIT framer state whose decrypted length field yields
packet_length > MAX_PACKET_LEN = 35000, or whose implied remainder
`packet_length - lenfield_blocksize + 4` is negative, leaves the session
with session_state = ERROR and fires no event at all — in particular no
packet handler is invoked for that packet. -/
theorem C3_length_check_fatal (reg : List PacketCallbacks) (s : Session)
    (data : List Nat)
    (hst : s.packet_state = .init)
    (hlen : sessionLenfield s ≤ data.length)
    (hbad : MAX_PACKET_LEN < be32 (ssh_packet_decrypt_len s data) ∨
      (be32 (ssh_packet_decrypt_len s data) : Int) - (sessionLenfield s : Int) + 4 < 0) :
    (ssh_packet_socket_callback reg s data).1.phase.session_state = .error ∧
    (ssh_packet_socket_callback reg s data).2.2 = [] := by
  by_cases herr : s.phase.session_state = .error
  · simp [ssh_packet_socket_callback, feed, feedError, herr]
  · have hnlt : ¬ data.length < sessionLenfield s := by omega
    rcases hbad with h1 | h2
    · simp [ssh_packet_socket_callback, feed, feedError, herr, hst, hnlt, h1]
    · by_cases h1 : MAX_PACKET_LEN < be32 (ssh_packet_decrypt_len s data)
      · simp [ssh_packet_socket_callback, feed, feedError, herr, hst, hnlt, h1]
      · simp [ssh_packet_socket_callback, feed, feedError, herr, hst, hnlt, h1, h2]

/-- C3 witness: a pre-KEX session fed a block declaring packet length 40000. -/
theorem C3_length_check_fatal_witness :
    (ssh_packet_socket_callback [] sess0 [0, 0, 156, 64, 0, 0, 0, 0]).1.phase.session_state
        = .error ∧
    (ssh_packet_socket_callback [] sess0 [0, 0, 156, 64, 0, 0, 0, 0]).2.2 = [] :=
  C3_length_check_fatal [] sess0 [0, 0, 156, 64, 0, 0, 0, 0] rfl (by decide)
    (Or.inl (by decide))

/-- C8 counterexample: a 16-byte feed declaring packet length 40000
(LEN_TOO_LARGE) sets session_state = ERROR but returns 8 — only the length
field block, not a count that drains the 16 delivered bytes. -/
theorem C8_counterexample :
    (ssh_packet_socket_callback [] sess0
      [0, 0, 156, 64, 0, 0, 0, 0, 0, 0, 0, 0, 0, 0, 0, 0]).1.phase.session_state
        = .error ∧
    (ssh_packet_socket_callback [] sess0
      [0, 0, 156, 64, 0, 0, 0, 0, 0, 0, 0, 0, 0, 0, 0, 0]).2.1 = 8 ∧
    (8 : Nat) ≠
      ([0, 0, 156, 64, 0, 0, 0, 0, 0, 0, 0, 0, 0, 0, 0, 0] : List Nat).length := by
  decide

/-- C8 amended: on a fatal error the feed sets session_state = ERROR and
returns the count of bytes processed up to the error point — for the
length-check errors exactly `lenfield_blocksize`, which can be less than
the byte count delivered in the call; the remainder is left with the
socket, and every later feed in the ERROR state consumes 0 bytes. -/
theorem C8_error_exit_returns_processed :
    (∀ (reg : List PacketCallbacks) (s : Session) (data : List Nat),
      s.phase.session_state ≠ .error →
      s.packet_state = .init →
      sessionLenfield s ≤ data.length →
      (MAX_PACKET_LEN < be32 (ssh_packet_decrypt_len s data) ∨
        (be32 (ssh_packet_decrypt_len s data) : Int) - (sessionLenfield s : Int) + 4 < 0) →
      (ssh_packet_socket_callback reg s data).1.phase.session_state = .error ∧
      (ssh_packet_socket_callback reg s data).2.1 = sessionLenfield s) ∧
    (∀ (reg : List PacketCallbacks) (s : Session) (data : List Nat),
      s.phase.session_state = .error →
      ssh_packet_socket_callback reg s data = (s, 0, [])) := by
  constructor
  · intro reg s data herr hst hlen hbad
    have hnlt : ¬ data.length < sessionLenfield s := by omega
    rcases hbad with h1 | h2
    · simp [ssh_packet_socket_callback, feed, feedError, herr, hst, hnlt, h1]
    · by_cases h1 : MAX_PACKET_LEN < be32 (ssh_packet_decrypt_len s data)
      · simp [ssh_packet_socket_callback, feed, feedError, herr, hst, hnlt, h1]
      · simp [ssh_packet_socket_callback, feed, feedError, herr, hst, hnlt, h1, h2]
  · intro reg s data herr
    obtain ⟨⟨ro, ss, dh, au, asv, gr, crq⟩, ps, l, t, v, ib, rs, rc, cr⟩ := s
    simp only at herr
    subst herr
    simp [ssh_packet_socket_callback, feed, feedError]

/-- C8 witness: the length-error case at a concrete 16-byte feed whose
lenfield block is 8 bytes, and the ERROR-state follow-up feed consuming 0. -/
theorem C8_error_exit_returns_processed_witness :
    ((ssh_packet_socket_callback [] sess0
        [0, 0, 156, 64, 0, 0, 0, 0, 0, 0, 0, 0, 0, 0, 0, 0]).1.phase.session_state
          = .error ∧
      (ssh_packet_socket_callback [] sess0
        [0, 0, 156, 64, 0, 0, 0, 0, 0, 0, 0, 0, 0, 0, 0, 0]).2.1 = sessionLenfield sess0) ∧
    ssh_packet_socket_callback []
      { sess0 with phase := { phase0 with session_state := .error } } [7, 7] =
      ({ sess0 with phase := { phase0 with session_state := .error } }, 0, []) :=
  ⟨C8_error_exit_returns_processed.1 [] sess0
      [0, 0, 156, 64, 0, 0, 0, 0, 0, 0, 0, 0, 0, 0, 0, 0]
      (by decide) rfl (by decide) (Or.inl (by decide)),
   C8_error_exit_returns_processed.2 []
      { sess0 with phase := { phase0 with session_state := .error } } [7, 7] rfl⟩

/-- C4: a well-framed incoming packet, under any crypto configuration
(hypotheses describe the black-box collaborators' outcomes: the decrypted
length field yields `L`, the MAC verifies, the assembled cleartext strips
to a payload whose first byte is `t`), whose type `t` the state filter
reports UNKNOWN — e.g. type 200 — yields exactly one outgoing UNIMPLEMENTED
carrying the received packet's own sequence number (`recv_seq - 1` after
the post-increment), does not set session_state to ERROR (the phase is
untouched), resets the framer to INIT, and the feed continues with the
bytes following the packet. -/
theorem C4_unknown_type_unimplemented (reg : List PacketCallbacks) (s : Session)
    (fuel L pad t c0 c1 c2 c3 : Nat) (data rest rest1 payloadRest : List Nat)
    (hst : s.packet_state = .init)
    (herr : s.phase.session_state ≠ .error)
    (hbe : be32 (ssh_packet_decrypt_len s data) = L)
    (hmax : L ≤ MAX_PACKET_LEN)
    (hlf : sessionLenfield s ≤ L + 4)
    (hlfpos : 0 < sessionLenfield s)
    (hdata : data.length = L + 4 + sessionMacsize s + rest.length)
    (hdrop : data.drop (L + 4 + sessionMacsize s) = rest)
    (hmac : packetMacOk s (ssh_packet_decrypt_len s data ++ packetTailAt s data L)
      (packetMacAt s data L) = true)
    (hassembled : ssh_packet_decrypt_len s data ++ packetTailAt s data L
      = c0 :: c1 :: c2 :: c3 :: pad :: rest1)
    (hpad : pad ≤ rest1.length)
    (hdec : decompressedPayload s (rest1.take (rest1.length - pad))
      = some (t :: payloadRest))
    (hseq : s.recv_seq < 4294967296)
    (hfilter : ssh_packet_incoming_filter t s.phase = .unknown) :
    feed reg (fuel + 1) s data =
      (let s1 : Session := { s with
          in_packet_len := 0, in_packet_type := t, in_packet_valid := true,
          in_buffer := payloadRest,
          recv_seq := u32 (s.recv_seq + 1),
          raw_counter := match s.raw_counter with
            | some r => some { r with
                in_bytes := u64 (r.in_bytes + (payloadRest.length + 1)),
                in_packets := u64 (r.in_packets + 1) }
            | none => none,
          packet_state := .init }
       ((feed reg fuel s1 rest).1,
        (L + 4 + sessionMacsize s) + (feed reg fuel s1 rest).2.1,
        Event.unimplementedSent s.recv_seq :: (feed reg fuel s1 rest).2.2)) := by
  have hge : L + 4 + sessionMacsize s ≤ data.length := by omega
  have hnshort : ¬ (data.length < sessionLenfield s) := by omega
  have hnmax : ¬ (MAX_PACKET_LEN < L) := by omega
  have hnneg : ¬ ((L : Int) - (sessionLenfield s : Int) + 4 < 0) := by omega
  -- unfold the INIT stage of the feed
  simp only [feed]
  rw [if_neg herr]
  simp only [hst, hbe]
  rw [if_neg hnshort, if_neg hnmax, if_neg hnneg]
  -- SIZEREAD stage: decrypt the tail and verify the MAC
  rw [feedPacket_step reg
    { phase := s.phase, packet_state := PacketState.sizeread, in_packet_len := L,
      in_packet_type := 0, in_packet_valid := false,
      in_buffer := ssh_packet_decrypt_len s data, recv_seq := s.recv_seq,
      raw_counter := s.raw_counter, current_crypto := s.current_crypto } data
    hge hmac]
  simp only []
  have hbr1 : packetTailAt
      { phase := s.phase, packet_state := PacketState.sizeread, in_packet_len := L,
        in_packet_type := 0, in_packet_valid := false,
        in_buffer := ssh_packet_decrypt_len s data, recv_seq := s.recv_seq,
        raw_counter := s.raw_counter, current_crypto := s.current_crypto } data L
      = packetTailAt s data L := rfl
  have hbr2 : sessionMacsize
      { phase := s.phase, packet_state := PacketState.sizeread, in_packet_len := L,
        in_packet_type := 0, in_packet_valid := false,
        in_buffer := ssh_packet_decrypt_len s data, recv_seq := s.recv_seq,
        raw_counter := s.raw_counter, current_crypto := s.current_crypto }
      = sessionMacsize s := rfl
  rw [hbr1, hbr2, hassembled]
  -- payload stage: strip padding, decompress, parse the type, filter UNKNOWN
  have hstep := feedPayload_unknown reg
    { phase := s.phase, packet_state := PacketState.sizeread, in_packet_len := L,
      in_packet_type := 0, in_packet_valid := false,
      in_buffer := c0 :: c1 :: c2 :: c3 :: pad :: rest1,
      recv_seq := s.recv_seq, raw_counter := s.raw_counter,
      current_crypto := s.current_crypto }
    (L + 4 + sessionMacsize s) c0 c1 c2 c3 pad t rest1 payloadRest
    rfl hpad hdec hfilter
  rw [hstep]
  rw [u32sub1_u32_succ s.recv_seq hseq]
  -- the leftover-bytes branch
  by_cases hr : 0 < rest.length
  · have hcond : L + 4 + sessionMacsize s < data.length := by omega
    rw [if_pos (by exact ⟨rfl, hcond⟩)]
    rw [hdrop]
    simp
  · have hrest : rest = [] := List.length_eq_zero.mp (by omega)
    subst hrest
    have hcond : ¬ (L + 4 + sessionMacsize s < data.length) := by omega
    rw [if_neg (by intro hcon; exact absurd hcon.2 hcond)]
    rw [feed_nil reg fuel
      { s with
        in_packet_len := 0, in_packet_type := t, in_packet_valid := true,
        in_buffer := payloadRest,
        recv_seq := u32 (s.recv_seq + 1),
        raw_counter := match s.raw_counter with
          | some r => some { r with
              in_bytes := u64 (r.in_bytes + (payloadRest.length + 1)),
              in_packets := u64 (r.in_packets + 1) }
          | none => none,
        packet_state := .init }
      (by simpa using herr) rfl hlfpos]
    simp

/-- C4 witness: the fresh pre-KEX session fed one 8-byte packet of type 200. -/
theorem C4_unknown_type_unimplemented_witness :
    feed [] (0 + 1) sess0 [0, 0, 0, 4, 1, 200, 7, 7] =
      (let s1 : Session := { sess0 with
          in_packet_len := 0, in_packet_type := 200, in_packet_valid := true,
          in_buffer := [7],
          recv_seq := u32 (sess0.recv_seq + 1),
          raw_counter := match sess0.raw_counter with
            | some r => some { r with
                in_bytes := u64 (r.in_bytes + (([7] : List Nat).length + 1)),
                in_packets := u64 (r.in_packets + 1) }
            | none => none,
          packet_state := .init }
       ((feed [] 0 s1 []).1,
        (4 + 4 + sessionMacsize sess0) + (feed [] 0 s1 []).2.1,
        Event.unimplementedSent sess0.recv_seq :: (feed [] 0 s1 []).2.2)) :=
  C4_unknown_type_unimplemented [] sess0 0 4 1 200 0 0 0 4
    [0, 0, 0, 4, 1, 200, 7, 7] [] [200, 7, 7] [7]
    rfl (by decide) (by decide) (by decide) (by decide) (by decide)
    (by decide) (by decide) (by decide) (by decide) (by decide)
    (by decide) (by decide) (by decide)

/-- C7 counterexample: a well-framed pre-KEX packet (len = 12, padding = 11)
whose payload after padding removal is zero bytes does NOT end in a fatal
error: an UNIMPLEMENTED reply is emitted and session_state is not ERROR,
contradicting the claim that no UNIMPLEMENTED results and session_state
becomes ERROR. -/
theorem C7_counterexample :
    (ssh_packet_socket_callback [] sess0
      [0, 0, 0, 12, 11, 0, 0, 0, 0, 0, 0, 0, 0, 0, 0, 0]).2.2 =
      [Event.unimplementedSent 0] ∧
    (ssh_packet_socket_callback [] sess0
      [0, 0, 0, 12, 11, 0, 0, 0, 0, 0, 0, 0, 0, 0, 0, 0]).1.phase.session_state
      ≠ .error := by
  decide

/-- C7 amended: on every incoming packet whose payload after padding
removal (and after decompression, when compression is active) is zero
bytes, `ssh_packet_parse_type` does fail, but the feed callback ignores its
return value: the packet is handled with `in_packet.type = 0` and
`in_packet.valid` still false, the filter reports type 0 UNKNOWN, exactly
one UNIMPLEMENTED reply (seq `recv_seq - 1`) is sent, session_state is NOT
set to ERROR, the framer returns to INIT, and the feed continues with the
bytes following the packet. Holds for any crypto configuration (hypotheses
describe the black-box collaborators' outcomes). -/
theorem C7_zero_payload_not_fatal (reg : List PacketCallbacks) (s : Session)
    (fuel L pad c0 c1 c2 c3 : Nat) (data rest rest1 : List Nat)
    (hst : s.packet_state = .init)
    (herr : s.phase.session_state ≠ .error)
    (hbe : be32 (ssh_packet_decrypt_len s data) = L)
    (hmax : L ≤ MAX_PACKET_LEN)
    (hlf : sessionLenfield s ≤ L + 4)
    (hlfpos : 0 < sessionLenfield s)
    (hdata : data.length = L + 4 + sessionMacsize s + rest.length)
    (hdrop : data.drop (L + 4 + sessionMacsize s) = rest)
    (hmac : packetMacOk s (ssh_packet_decrypt_len s data ++ packetTailAt s data L)
      (packetMacAt s data L) = true)
    (hassembled : ssh_packet_decrypt_len s data ++ packetTailAt s data L
      = c0 :: c1 :: c2 :: c3 :: pad :: rest1)
    (hpad : pad ≤ rest1.length)
    (hdec : decompressedPayload s (rest1.take (rest1.length - pad)) = some [])
    (hseq : s.recv_seq < 4294967296) :
    feed reg (fuel + 1) s data =
      (let s1 : Session := { s with
          in_packet_len := 0, in_packet_type := 0, in_packet_valid := false,
          in_buffer := [],
          recv_seq := u32 (s.recv_seq + 1),
          raw_counter := match s.raw_counter with
            | some r => some { r with
                in_bytes := u64 (r.in_bytes + 0),
                in_packets := u64 (r.in_packets + 1) }
            | none => none,
          packet_state := .init }
       ((feed reg fuel s1 rest).1,
        (L + 4 + sessionMacsize s) + (feed reg fuel s1 rest).2.1,
        Event.unimplementedSent s.recv_seq :: (feed reg fuel s1 rest).2.2)) := by
  have hge : L + 4 + sessionMacsize s ≤ data.length := by omega
  have hnshort : ¬ (data.length < sessionLenfield s) := by omega
  have hnmax : ¬ (MAX_PACKET_LEN < L) := by omega
  have hnneg : ¬ ((L : Int) - (sessionLenfield s : Int) + 4 < 0) := by omega
  simp only [feed]
  rw [if_neg herr]
  simp only [hst, hbe]
  rw [if_neg hnshort, if_neg hnmax, if_neg hnneg]
  rw [feedPacket_step reg
    { phase := s.phase, packet_state := PacketState.sizeread, in_packet_len := L,
      in_packet_type := 0, in_packet_valid := false,
      in_buffer := ssh_packet_decrypt_len s data, recv_seq := s.recv_seq,
      raw_counter := s.raw_counter, current_crypto := s.current_crypto } data
    hge hmac]
  simp only []
  have hbr1 : packetTailAt
      { phase := s.phase, packet_state := PacketState.sizeread, in_packet_len := L,
        in_packet_type := 0, in_packet_valid := false,
        in_buffer := ssh_packet_decrypt_len s data, recv_seq := s.recv_seq,
        raw_counter := s.raw_counter, current_crypto := s.current_crypto } data L
      = packetTailAt s data L := rfl
  have hbr2 : sessionMacsize
      { phase := s.phase, packet_state := PacketState.sizeread, in_packet_len := L,
        in_packet_type := 0, in_packet_valid := false,
        in_buffer := ssh_packet_decrypt_len s data, recv_seq := s.recv_seq,
        raw_counter := s.raw_counter, current_crypto := s.current_crypto }
      = sessionMacsize s := rfl
  rw [hbr1, hbr2, hassembled]
  have hstep := feedPayload_zeroPayload reg
    { phase := s.phase, packet_state := PacketState.sizeread, in_packet_len := L,
      in_packet_type := 0, in_packet_valid := false,
      in_buffer := c0 :: c1 :: c2 :: c3 :: pad :: rest1,
      recv_seq := s.recv_seq, raw_counter := s.raw_counter,
      current_crypto := s.current_crypto }
    (L + 4 + sessionMacsize s) c0 c1 c2 c3 pad rest1
    rfl hpad hdec
  rw [hstep]
  rw [u32sub1_u32_succ s.recv_seq hseq]
  by_cases hr : 0 < rest.length
  · have hcond : L + 4 + sessionMacsize s < data.length := by omega
    rw [if_pos (by exact ⟨rfl, hcond⟩)]
    rw [hdrop]
    simp
  · have hrest : rest = [] := List.length_eq_zero.mp (by omega)
    subst hrest
    have hcond : ¬ (L + 4 + sessionMacsize s < data.length) := by omega
    rw [if_neg (by intro hcon; exact absurd hcon.2 hcond)]
    rw [feed_nil reg fuel
      { s with
        in_packet_len := 0, in_packet_type := 0, in_packet_valid := false,
        in_buffer := [],
        recv_seq := u32 (s.recv_seq + 1),
        raw_counter := match s.raw_counter with
          | some r => some { r with
              in_bytes := u64 (r.in_bytes + 0),
              in_packets := u64 (r.in_packets + 1) }
          | none => none,
        packet_state := .init }
      (by simpa using herr) rfl hlfpos]
    simp

/-- C7 witness: the 16-byte zero-payload packet on the fresh session. -/
theorem C7_zero_payload_not_fatal_witness :
    feed [] (0 + 1) sess0 [0, 0, 0, 12, 11, 0, 0, 0, 0, 0, 0, 0, 0, 0, 0, 0] =
      (let s1 : Session := { sess0 with
          in_packet_len := 0, in_packet_type := 0, in_packet_valid := false,
          in_buffer := [],
          recv_seq := u32 (sess0.recv_seq + 1),
          raw_counter := match sess0.raw_counter with
            | some r => some { r with
                in_bytes := u64 (r.in_bytes + 0),
                in_packets := u64 (r.in_packets + 1) }
            | none => none,
          packet_state := .init }
       ((feed [] 0 s1 []).1,
        (12 + 4 + sessionMacsize sess0) + (feed [] 0 s1 []).2.1,
        Event.unimplementedSent sess0.recv_seq :: (feed [] 0 s1 []).2.2)) :=
  C7_zero_payload_not_fatal [] sess0 0 12 11 0 0 0 12
    [0, 0, 0, 12, 11, 0, 0, 0, 0, 0, 0, 0, 0, 0, 0, 0] []
    [0, 0, 0, 0, 0, 0, 0, 0, 0, 0, 0]
    rfl (by decide) (by decide) (by decide) (by decide) (by decide)
    (by decide) (by decide) (by decide) (by decide) (by decide)
    (by decide) (by decide)

end LibsshPacket
